import Mathlib

/-!
Verification development for the RowLab share-card layout engine
(`src/server/python-services/share-card/templates/erg_summary_alt.py`).

The Python module is shallowly embedded: numeric telemetry is modelled by
`Rat` (the Python float arithmetic on the small decimal values involved agrees
with exact rational arithmetic at every comparison, truncation and rounding
performed here), Python `None` by `Option`, and Python truthiness of a field
by "present and nonzero" (resp. nonempty, for strings).  String rendering
(`str`, zero padding, thousands-separator grouping, f-strings) is
re-implemented character for character so that every formatter is an
executable Lean function.
-/

unseal Rat.add Rat.mul Rat.sub Rat.inv Rat.ofScientific

/-! ## Python primitives -/

/-- Python `int(q)` on a float value: truncation toward zero. -/
def pyInt (q : ℚ) : ℤ :=
  if 0 ≤ q then ⌊q⌋ else ⌈q⌉

/-- Python `round(q)` (round-half-even: ties go to the even integer). -/
def pyRound (q : ℚ) : ℤ :=
  let f := ⌊q⌋
  let r := q - f
  if r < 1 / 2 then f
  else if 1 / 2 < r then f + 1
  else if 2 ∣ f then f else f + 1

/-- Python float `a % b` for positive `b`: the representative in `[0, b)`. -/
def pyMod (a b : ℚ) : ℚ := a - b * ⌊a / b⌋

/-- The ASCII digit character for `n % 10`. -/
def digitChar (n : ℕ) : Char :=
  Char.ofNat (48 + n % 10)

/-- Decimal digits of `n`, most significant first, with explicit fuel so the
recursion is structural (the kernel can evaluate it). -/
def pyStrAux : ℕ → ℕ → String
  | 0, _ => ""
  | fuel + 1, n =>
    if n < 10 then String.mk [digitChar n]
    else pyStrAux fuel (n / 10) ++ String.mk [digitChar n]

/-- Python `str(n)` for a natural number. -/
def pyStr (n : ℕ) : String := pyStrAux (n + 1) n

/-- Python `str(z)` for an integer. -/
def pyStrInt (z : ℤ) : String :=
  if z < 0 then "-" ++ pyStr z.natAbs else pyStr z.natAbs

/-- Python `f"{n:02d}"` for a nonnegative value. -/
def pad2 (n : ℕ) : String :=
  if n < 10 then "0" ++ pyStr n else pyStr n

/-- Three-digit zero padding, used inside thousands groups. -/
def pad3 (n : ℕ) : String :=
  if n < 10 then "00" ++ pyStr n
  else if n < 100 then "0" ++ pyStr n
  else pyStr n

/-- Thousands grouping with explicit fuel (structural recursion). -/
def commaGroupAux : ℕ → ℕ → String
  | 0, _ => ""
  | fuel + 1, n =>
    if n < 1000 then pyStr n
    else commaGroupAux fuel (n / 1000) ++ "," ++ pad3 (n % 1000)

/-- Python `f"{n:,}"` for a natural number: groups of three digits separated
by commas. -/
def commaGroup (n : ℕ) : String := commaGroupAux (n + 1) n

/-- Python `f"{z:,}"` for an integer. -/
def pyCommaInt (z : ℤ) : String :=
  if z < 0 then "-" ++ commaGroup z.natAbs else commaGroup z.natAbs

/-- Python `f"{q:04.1f}"` for a nonnegative float: round (half-even) to one
decimal, then zero-pad the whole rendering to width 4. -/
def fmt04_1 (q : ℚ) : String :=
  let t := (pyRound (q * 10)).toNat
  pad2 (t / 10) ++ "." ++ pyStr (t % 10)

/-- Python `pat in s` substring test. -/
def strContainsSub (s pat : String) : Bool :=
  s.data.tails.any fun t => pat.data.isPrefixOf t

/-- Python `s.lower()` (all strings involved are ASCII). -/
def pyLower (s : String) : String :=
  String.mk (s.data.map Char.toLower)

/-- Python `s.upper()` (all strings involved are ASCII). -/
def pyUpper (s : String) : String :=
  String.mk (s.data.map Char.toUpper)

/-- Python f-string interpolation of a value that may be `None`
(`f"{x}"` renders `None` as the string `"None"`). -/
def pyFmtOptStr : Option String → String
  | some s => s
  | none => "None"

/-- Truthiness of an optional rational field (`None` and `0` are falsy). -/
def truthyQ : Option ℚ → Bool
  | some q => q != 0
  | none => false

/-- Truthiness of an optional integer field (`None` and `0` are falsy). -/
def truthyZ : Option ℤ → Bool
  | some z => z != 0
  | none => false

/-- Truthiness of an optional string field (`None` and `""` are falsy). -/
def truthyS : Option String → Bool
  | some s => s != ""
  | none => false

/-! ## Data model

`workoutType` arrives from JSON and is normally a string, but the renderer
explicitly also recognises the numeric value `0` as JustRow
(`wtype == "JustRow" or wtype == 0`).  A nonzero number would crash the
substring test in `is_interval`, so the embedded type covers exactly the
values the program is total on: strings and the number zero.  Everywhere the
code does `data.get("workoutType", "")` or `(data.get("workoutType") or "")`,
the numeric zero behaves like the empty string (it is falsy and compares
unequal to every string), which `WorkoutType.name` reflects. -/

inductive WorkoutType where
  | str (s : String)
  | zero
  deriving DecidableEq

/-- The string the rest of the module sees for a workout type. -/
def WorkoutType.name : WorkoutType → String
  | .str s => s
  | .zero => ""

/-- Python `wtype == "JustRow" or wtype == 0` (source line 222). -/
def isJustRowType : WorkoutType → Bool
  | .str s => s == "JustRow"
  | .zero => true

/-- One split record (one row of granular data). -/
structure Split where
  splitNumber : Option ℤ := none
  distanceM : Option ℤ := none
  timeSeconds : Option ℚ := none
  paceTenths : Option ℚ := none
  watts : Option ℤ := none
  strokeRate : Option ℤ := none
  heartRate : Option ℤ := none
  restTime : Option ℚ := none
  restDistance : Option ℤ := none
  heartRateRest : Option ℤ := none
  heartRateEnding : Option ℤ := none
  deriving DecidableEq

/-- The workout record handed to the renderer.  `inferredTitle` flattens the
single consulted key of the `inferredPattern` sub-dictionary
(the chained `get` on the "inferredPattern" then "inferredTitle" keys). -/
structure Workout where
  workoutType : WorkoutType := .str ""
  isInterval : Bool := false
  rawMachineType : Option String := none
  machineType : Option String := none
  distanceM : Option ℤ := none
  durationSeconds : Option ℚ := none
  avgPaceTenths : Option ℚ := none
  avgWatts : Option ℤ := none
  avgHeartRate : Option ℤ := none
  strokeRate : Option ℤ := none
  calories : Option ℤ := none
  dragFactor : Option ℤ := none
  splits : List Split := []
  inferredTitle : Option String := none
  deriving DecidableEq

/-! ## Machine-aware helpers (source lines 28-69) -/

def MACHINE_LABELS : List (String × String) :=
  [("rower", "ERG"), ("slides", "DYNAMIC"), ("dynamic", "DYNAMIC"),
   ("skierg", "SKIERG"), ("bike", "BIKEERG"), ("bikerg", "BIKEERG")]

/-- `(data.get("rawMachineType") or data.get("machineType") or "rower").lower()`. -/
def _machine (d : Workout) : String :=
  (if truthyS d.rawMachineType then d.rawMachineType.getD ""
   else if truthyS d.machineType then d.machineType.getD ""
   else "rower") |> pyLower

def is_bike (d : Workout) : Bool :=
  _machine d == "bike" || _machine d == "bikerg"

def pace_unit (d : Workout) : String :=
  if is_bike d then "/1000m" else "/500m"

/-- Compact version for tight table columns. -/
def pace_unit_short (d : Workout) : String :=
  if is_bike d then "/1Km" else "/500m"

def rate_label (d : Workout) : String :=
  if is_bike d then "RPM" else "SPM"

def machine_label (d : Workout) : String :=
  (MACHINE_LABELS.lookup (_machine d)).getD "ERG"

/-! ## Formatting (source lines 76-158) -/

/-- `format_time_clean(seconds)`: format seconds, dropping an unnecessary
trailing `.0` tenths digit. -/
def format_time_clean (seconds : Option ℚ) : String :=
  if !truthyQ seconds then "--:--"
  else
    let s := seconds.getD 0
    let hrs := ⌊s / 3600⌋
    let mins := ⌊pyMod s 3600 / 60⌋
    let secs := pyMod s 60
    let tenths := pyRound (pyMod secs 1 * 10)
    let whole_secs := pyInt secs
    if 0 < hrs then
      if tenths = 0 then pyStrInt hrs ++ ":" ++ pad2 mins.toNat ++ ":" ++ pad2 whole_secs.toNat
      else pyStrInt hrs ++ ":" ++ pad2 mins.toNat ++ ":" ++ fmt04_1 secs
    else
      if tenths = 0 then pyStrInt mins ++ ":" ++ pad2 whole_secs.toNat
      else pyStrInt mins ++ ":" ++ fmt04_1 secs

/-- The `M:SS.t` conversion at the end of `format_pace` (source lines 103-107). -/
def paceMSt (tenths : ℚ) : String :=
  let total_seconds := tenths / 10
  let mins := ⌊total_seconds / 60⌋
  let secs := pyMod total_seconds 60
  pyStrInt mins ++ ":" ++ fmt04_1 secs

/-- `format_pace(pace_tenths_per_500m, data)`: the DB stores tenths-per-500m
for all machines; a bike displays per 1000m (multiply by 2). -/
def format_pace (pace_tenths_per_500m : Option ℚ) (d : Workout) : String :=
  if !truthyQ pace_tenths_per_500m then "--:--"
  else
    let p := pace_tenths_per_500m.getD 0
    paceMSt (if is_bike d then p * 2 else p)

/-- `format_rest_tenths(tenths)`: `M:SS` / `:SS`, `None` when falsy. -/
def format_rest_tenths (tenths : Option ℚ) : Option String :=
  if !truthyQ tenths then none
  else
    let t := tenths.getD 0 / 10
    let mins := ⌊t / 60⌋
    let secs := pyInt (pyMod t 60)
    some (if 0 < mins then pyStrInt mins ++ ":" ++ pad2 secs.toNat
          else ":" ++ pad2 secs.toNat)

/-- `format_time_coach(seconds)`: coach whiteboard style. -/
def format_time_coach (seconds : Option ℚ) : String :=
  if !truthyQ seconds then "--"
  else
    let s := seconds.getD 0
    let mins := ⌊s / 60⌋
    let secs := pyInt (pyMod s 60)
    if 0 < mins ∧ secs = 0 then pyStrInt mins ++ "\x27"
    else if 0 < mins then pyStrInt mins ++ "\x27" ++ pad2 secs.toNat ++ "\""
    else pyStr secs.toNat ++ "\""

/-- `format_rest_coach(tenths)`: coach style with a trailing `r`,
`None` when falsy. -/
def format_rest_coach (tenths : ℚ) : Option String :=
  if tenths = 0 then none
  else
    let t := tenths / 10
    let mins := ⌊t / 60⌋
    let secs := pyInt (pyMod t 60)
    some (if 0 < mins ∧ secs = 0 then pyStrInt mins ++ "\x27r"
          else if 0 < mins then pyStrInt mins ++ "\x27" ++ pad2 secs.toNat ++ "\"r"
          else pyStr secs.toNat ++ "\"r")

/-- `format_distance(meters)`: exact multiples of 1000 at or above 1000
render as `nK`, otherwise comma-grouped meters. -/
def format_distance (meters : Option ℤ) : String :=
  if !truthyZ meters then "--"
  else
    let m := meters.getD 0
    if 1000 ≤ m ∧ m % 1000 = 0 then pyStrInt (m / 1000) ++ "K"
    else pyCommaInt m ++ "m"

/-! ## Workout classification (source lines 173-204) -/

def is_interval (d : Workout) : Bool :=
  d.isInterval || strContainsSub (pyLower d.workoutType.name) "interval"

/-- Splits/intervals where TIME is the fixed dimension (distance varies). -/
def is_fixed_time_type (d : Workout) : Bool :=
  d.workoutType.name == "FixedTimeSplits" || d.workoutType.name == "FixedTimeInterval"

/-- Splits/intervals where DISTANCE is the fixed dimension (time varies). -/
def is_fixed_dist_type (d : Workout) : Bool :=
  d.workoutType.name == "FixedDistanceSplits" || d.workoutType.name == "FixedDistanceInterval"

/-- `[s.get("restTime") for s in l if s.get("restTime")]`. -/
def nonzeroRests (l : List Split) : List ℚ :=
  l.filterMap fun s => match s.restTime with
    | some r => if r != 0 then some r else none
    | none => none

/-- `[s.get("distanceM") for s in l if s.get("distanceM")]`. -/
def nonzeroDistances (l : List Split) : List ℤ :=
  l.filterMap fun s => match s.distanceM with
    | some v => if v != 0 then some v else none
    | none => none

/-- `[s.get("timeSeconds") for s in l if s.get("timeSeconds")]`. -/
def nonzeroTimes (l : List Split) : List ℚ :=
  l.filterMap fun s => match s.timeSeconds with
    | some v => if v != 0 then some v else none
    | none => none

/-- The body of `has_uniform_rest` applied to its `work_splits` list
(`len(set(rest_times)) == 1` holds iff every element equals the first). -/
def uniformCore (work_splits : List Split) : Bool × Option ℚ :=
  match nonzeroRests work_splits with
  | [] => (true, none)
  | r :: rs => if rs.all (· == r) then (true, some r) else (false, none)

/-- `has_uniform_rest(splits)`: excludes the last interval when there is more
than one split (the PM5 records cooldown there, not a real rest). -/
def has_uniform_rest (splits : List Split) : Bool × Option ℚ :=
  uniformCore (if splits.length > 1 then splits.dropLast else splits)

/-- `has_valuable_rest_data(splits)`: any interval with recovery HR. -/
def has_valuable_rest_data (splits : List Split) : Bool :=
  splits.any fun s => truthyZ s.heartRateRest

/-! ## Title builder (source lines 211-283) -/

/-- The body of `_rest_label` applied to its `work_splits` list. -/
def restLabelCore (work_splits : List Split) (approx : Bool) : String :=
  match nonzeroRests work_splits with
  | [] => ""
  | r :: rs =>
    if rs.all (· == r) then
      (if approx then " / ~" else " / ") ++ pyFmtOptStr (format_rest_coach r)
    else
      " / ~" ++ pyFmtOptStr (format_rest_coach ((r :: rs).sum / ((r :: rs).length : ℚ)))

/-- `_rest_label(splits, approx)`: rest portion of the title in coach style,
excluding the last interval when there is more than one split. -/
def _rest_label (splits : List Split) (approx : Bool) : String :=
  restLabelCore (if splits.length > 1 then splits.dropLast else splits) approx

/-- `build_title(data)`: concise workout title in coach whiteboard style. -/
def build_title (d : Workout) : String :=
  let wtype := d.workoutType.name
  let splits := d.splits
  let distance := d.distanceM
  let duration := d.durationSeconds
  if isJustRowType d.workoutType && truthyS d.inferredTitle then
    d.inferredTitle.getD ""
  else if is_interval d && !splits.isEmpty then
    let n := splits.length
    let fdTitle : Option String :=
      if wtype == "FixedDistanceInterval" then
        match nonzeroDistances splits with
        | [] => none
        | d0 :: ds =>
          if ds.all (· == d0) then
            some (pyStr n ++ "x" ++ format_distance (some d0) ++ _rest_label splits false)
          else none
      else none
    match fdTitle with
    | some t => t
    | none =>
      let ftTitle : Option String :=
        if wtype == "FixedTimeInterval" then
          match nonzeroTimes splits with
          | [] => none
          | t0 :: ts =>
            if ts.all (fun t => pyInt t == pyInt t0) then
              some (pyStr n ++ "x" ++ format_time_coach (some t0) ++ _rest_label splits false)
            else none
        else none
      match ftTitle with
      | some t => t
      | none =>
        if wtype == "VariableInterval" || wtype == "VariableIntervalUndefinedRest" then
          match nonzeroDistances splits with
          | d0 :: ds =>
            if ds.all (· == d0) then
              pyStr n ++ "x" ++ format_distance (some d0) ++ _rest_label splits true
            else pyStr n ++ " pieces"
          | [] => pyStr n ++ " pieces"
        else pyStr n ++ " intervals" ++ _rest_label splits false
  else if wtype == "FixedTimeSplits" then format_time_coach duration
  else if wtype == "FixedDistanceSplits" then format_distance distance
  else if truthyZ distance then format_distance distance
  else if truthyQ duration then format_time_coach duration
  else machine_label d

/-! ## Hero metric selection (source lines 290-311) -/

/-- Standard test distances where TOTAL TIME is the hero. -/
def TEST_DISTANCES : List ℤ := [500, 1000, 2000, 5000, 6000]

/-- `get_hero(data)`: the `(value_string, label_string)` hero metric. -/
def get_hero (d : Workout) : String × String :=
  let distance := d.distanceM
  let duration := d.durationSeconds
  let avg_pace_tenths := d.avgPaceTenths
  let avg_watts := d.avgWatts
  let wtype := d.workoutType.name
  if truthyZ distance && TEST_DISTANCES.contains (distance.getD 0) && !is_interval d then
    (format_time_clean duration, "TOTAL TIME")
  else if wtype == "FixedTimeInterval" && is_bike d && truthyZ avg_watts then
    (pyStrInt (avg_watts.getD 0), "AVG WATTS")
  else if is_interval d then
    (format_pace avg_pace_tenths d, "AVG SPLIT " ++ pace_unit d)
  else
    (format_pace avg_pace_tenths d, "AVG PACE " ++ pace_unit d)

/-! ## Table columns (source lines 408-473) -/

/-- One table column: `(key, header_label, format_fn, align)`. -/
structure Column where
  key : String
  header : String
  fmt : Split → String
  align : String

def fmt_dist (s : Split) : String :=
  if truthyZ s.distanceM then pyCommaInt (s.distanceM.getD 0) ++ "m" else "--"

def fmt_time (s : Split) : String :=
  format_time_clean s.timeSeconds

def fmt_pace (d : Workout) (s : Split) : String :=
  format_pace s.paceTenths d

def fmt_watts (s : Split) : String :=
  if truthyZ s.watts then pyStrInt (s.watts.getD 0) else "--"

/-- Note the source guards with `is not None`, not truthiness: a stored zero
is rendered as `0`. -/
def fmt_rate (s : Split) : String :=
  match s.strokeRate with
  | some sr => pyStrInt sr
  | none => "--"

/-- Note the source guards with `is not None`, not truthiness: a stored zero
is rendered as `0`. -/
def fmt_hr (s : Split) : String :=
  match s.heartRate with
  | some hr => pyStrInt hr
  | none => "--"

/-- `get_table_columns(data)`: column definitions keyed on workout type. -/
def get_table_columns (d : Workout) : List Column :=
  let pu := pace_unit_short d
  let rl := pyLower (rate_label d)
  let pace_hdr := "PACE (" ++ pu ++ ")"
  if is_fixed_time_type d then
    [⟨"dist", "DIST", fmt_dist, "left"⟩,
     ⟨"pace", pace_hdr, fmt_pace d, "left"⟩,
     ⟨"watts", "WATTS", fmt_watts, "right"⟩,
     ⟨"rate", (pyUpper rl), fmt_rate, "right"⟩,
     ⟨"hr", "HR", fmt_hr, "right"⟩]
  else if is_fixed_dist_type d then
    [⟨"time", "TIME", fmt_time, "left"⟩,
     ⟨"pace", pace_hdr, fmt_pace d, "left"⟩,
     ⟨"watts", "WATTS", fmt_watts, "right"⟩,
     ⟨"rate", (pyUpper rl), fmt_rate, "right"⟩,
     ⟨"hr", "HR", fmt_hr, "right"⟩]
  else if d.workoutType.name == "VariableInterval"
       || d.workoutType.name == "VariableIntervalUndefinedRest" then
    [⟨"dist", "DIST", fmt_dist, "left"⟩,
     ⟨"time", "TIME", fmt_time, "left"⟩,
     ⟨"pace", pace_hdr, fmt_pace d, "left"⟩,
     ⟨"watts", "WATTS", fmt_watts, "right"⟩,
     ⟨"rate", (pyUpper rl), fmt_rate, "right"⟩,
     ⟨"hr", "HR", fmt_hr, "right"⟩]
  else
    [⟨"pace", pace_hdr, fmt_pace d, "left"⟩,
     ⟨"watts", "WATTS", fmt_watts, "right"⟩,
     ⟨"rate", (pyUpper rl), fmt_rate, "right"⟩,
     ⟨"hr", "HR", fmt_hr, "right"⟩]

/-! ## Adaptive table layout (source lines 807-840) -/

structure LayoutResult where
  data_row_h : ℤ
  rest_row_h : ℤ
  data_font : ℤ
  max_rows : ℤ
  deriving DecidableEq

/-- The "too many rows — shrink to fit" step (source lines 832-838): when
`total_h` exceeds the available height, rescale the three sizes by
`avail_height / total_h` and re-clamp each to its absolute floor. -/
def overflowRescale (avail_height total_h : ℚ)
    (data_row_h rest_row_h data_font : ℤ) : ℤ × ℤ × ℤ :=
  if avail_height < total_h then
    let scale := avail_height / total_h
    (max 60 (pyInt ((data_row_h : ℚ) * scale)),
     max 32 (pyInt ((rest_row_h : ℚ) * scale)),
     max 44 (pyInt ((data_font : ℚ) * scale)))
  else (data_row_h, rest_row_h, data_font)

/-- The dynamic sizing block of `render_erg_summary_alt`: row counts to
row/font sizes to maximum displayable rows. -/
def compute_table_layout (avail_height : ℚ) (n_data_rows : ℕ)
    (intervals show_rest : Bool) : LayoutResult :=
  let n_rest_rows : ℕ := if intervals && show_rest then n_data_rows - 1 else 0
  let total_content_units : ℚ := (n_data_rows : ℚ) + (n_rest_rows : ℚ) * 0.5
  let ideal_row_h : ℚ :=
    if 0 < total_content_units then avail_height / total_content_units else 80
  let data_row_h : ℤ := max 75 (min 120 (pyInt ideal_row_h))
  let rest_row_h : ℤ := max 40 (min 60 (pyInt (ideal_row_h * 0.5)))
  let data_font : ℤ := max 44 (min 52 (pyInt ((data_row_h : ℚ) * 0.42)))
  let total_h : ℚ := (n_data_rows : ℚ) * (data_row_h : ℚ) + (n_rest_rows : ℚ) * (rest_row_h : ℚ)
  let scaled : ℤ × ℤ × ℤ :=
    overflowRescale avail_height total_h data_row_h rest_row_h data_font
  let max_rows : ℤ :=
    max 1 (pyInt (avail_height / ((scaled.1 : ℚ) + (if show_rest then (scaled.2.1 : ℚ) else 8))))
  ⟨scaled.1, scaled.2.1, scaled.2.2, max_rows⟩

/-! ## Renderer control flow (source lines 583-859, drawing elided) -/

/-- `show_rest_rows` as computed at source lines 780-781. -/
def show_rest_rows (d : Workout) : Bool :=
  is_interval d && (!(has_uniform_rest d.splits).1 || has_valuable_rest_data d.splits)

/-- The 2x2 summary-stat grid contents (source lines 663-679). -/
def summary_stats (d : Workout) : List (String × String) :=
  let rl := rate_label d
  let hero := get_hero d
  let hero_is_watts := strContainsSub (pyUpper hero.2) "WATTS"
  let stats1 := [hero]
  let stats2 :=
    if !hero_is_watts && d.avgWatts.isSome then
      stats1 ++ [(pyStrInt (d.avgWatts.getD 0), "WATTS")]
    else if hero_is_watts && truthyQ d.avgPaceTenths then
      stats1 ++ [(format_pace d.avgPaceTenths d, "AVG PACE " ++ pace_unit d)]
    else if truthyQ d.durationSeconds then
      stats1 ++ [(format_time_clean d.durationSeconds, "TOTAL TIME")]
    else stats1
  let stats3 :=
    if d.strokeRate.isSome then stats2 ++ [(pyStrInt (d.strokeRate.getD 0), rl)] else stats2
  if d.avgHeartRate.isSome then stats3 ++ [(pyStrInt (d.avgHeartRate.getD 0), "AVG HR")]
  else stats3

/-- The extended "WORKOUT SUMMARY" stat list for short workouts
(source lines 725-741). -/
def extended_stats (d : Workout) : List (String × String) :=
  (if truthyZ d.distanceM then [("Total Distance", pyCommaInt (d.distanceM.getD 0) ++ "m")] else [])
  ++ (if truthyQ d.durationSeconds then [("Total Time", format_time_clean d.durationSeconds)] else [])
  ++ (if truthyQ d.avgPaceTenths then
        [("Avg Pace", format_pace d.avgPaceTenths d ++ " " ++ pace_unit d)] else [])
  ++ (if truthyZ d.avgWatts then [("Avg Watts", pyStrInt (d.avgWatts.getD 0))] else [])
  ++ (if truthyZ d.strokeRate then [("Avg " ++ rate_label d, pyStrInt (d.strokeRate.getD 0))] else [])
  ++ (if truthyZ d.avgHeartRate then [("Avg Heart Rate", pyStrInt (d.avgHeartRate.getD 0))] else [])
  ++ (if truthyZ d.calories then [("Calories", pyStrInt (d.calories.getD 0))] else [])
  ++ (if truthyZ d.dragFactor then [("Drag Factor", pyStrInt (d.dragFactor.getD 0))] else [])

/-- Hero title auto-sizing (source lines 634-642). -/
def hero_font_size (title : String) : ℕ :=
  let title_len := title.length
  if title_len ≤ 12 then 200
  else if title_len ≤ 18 then 160
  else if title_len ≤ 24 then 120
  else 100

/-- The structural outcome of the splits section of the renderer: nothing,
the extended short-workout summary (with its stat list and optional inline
pace line), or the sized table. -/
inductive TablePlan where
  | noSplits : TablePlan
  | shortSummary (stats : List (String × String)) (paceLine : Bool) : TablePlan
  | table (showRest : Bool) (layout : LayoutResult) (rowsShown : ℕ) (truncated : Bool) : TablePlan
  deriving DecidableEq

/-- The splits/table section of `render_erg_summary_alt` (source lines
704-859) with drawing elided: which branch is taken and, for the table
branch, the computed sizing, row count and truncation flag. -/
def render_table_section (height : ℤ) (d : Workout) : TablePlan :=
  let splits := d.splits
  if splits.isEmpty then .noSplits
  else
    let stats := summary_stats d
    let title := build_title d
    let metrics_y : ℤ := 300 + pyInt ((hero_font_size title : ℚ) * 1.5)
    let stats_rows : ℤ := if 4 ≤ stats.length then 2 else 1
    let table_start_y : ℤ := metrics_y + stats_rows * 140 + 100
    let wtype := d.workoutType.name
    let is_short_workout := splits.length ≤ 3 && (wtype == "JustRow" || wtype == "FixedTimeSplits")
    if is_short_workout then
      .shortSummary (extended_stats d) (1 < splits.length)
    else
      let header_y := table_start_y + 50
      let col_header_y := header_y + 60
      let cy := col_header_y + 52
      let branding_reserve : ℤ := 220
      let avail_height : ℚ := ((height - cy - branding_reserve : ℤ) : ℚ)
      let srr := show_rest_rows d
      let layout := compute_table_layout avail_height splits.length (is_interval d) srr
      let max_rows := layout.max_rows.toNat
      .table srr layout (min splits.length max_rows) (decide (max_rows < splits.length))

/-- The renderer canvas dimensions (source lines 23-26). -/
def DIMENSIONS : List (String × ℤ × ℤ) :=
  [("1:1", (2160, 2160)), ("9:16", (2160, 3840))]

/-! ## Spec-side definitions (for the refinement claims) -/

/-- Spec 4.6 wording: the rest times of the non-final splits are all equal,
under the falsy-absent convention of spec 4.9 (a `restTime` of 0/None means
"no rest recorded"). -/
def uniformRestSpec (splits : List Split) : Prop :=
  ∀ r₁ ∈ nonzeroRests splits.dropLast, ∀ r₂ ∈ nonzeroRests splits.dropLast, r₁ = r₂

/-- Spec 4.6 wording: `showRestRows = isInterval AND (NOT uniformRest OR
hasValuableRestData)` with `hasValuableRestData` true iff some split carries
recovery heart rate. -/
def restRowsSpec (d : Workout) : Prop :=
  is_interval d = true ∧
    (¬ uniformRestSpec d.splits ∨ ∃ s ∈ d.splits, truthyZ s.heartRateRest = true)

/-- Replace the restTime of the last split (used to state the rest-exclusion
invariant). -/
def setLastRest (r : Option ℚ) : List Split → List Split
  | [] => []
  | [s] => [{ s with restTime := r }]
  | s :: s' :: rest => s :: setLastRest r (s' :: rest)

/-! ## Concrete records used by witnesses and counterexamples -/

/-- A 2000 m interval split with the given rest. -/
def fdiSplit (rest : Option ℚ) : Split :=
  { distanceM := some 2000, restTime := rest }

/-- FixedDistanceInterval, 5 x 2000 m, rest 600 tenths on every split except
the last (the C2 scenario). -/
def fdi2Kx5 : Workout :=
  { workoutType := .str "FixedDistanceInterval",
    splits := [fdiSplit (some 600), fdiSplit (some 600), fdiSplit (some 600),
               fdiSplit (some 600), fdiSplit none] }

/-- Continuous 2K: `distanceM=2000, isInterval=false, durationSeconds=382.1`. -/
def twoKContinuous : Workout :=
  { distanceM := some 2000, durationSeconds := some 382.1 }

/-- The same record with `isInterval=true` and an average pace present. -/
def twoKIntervalFlag : Workout :=
  { distanceM := some 2000, durationSeconds := some 382.1,
    isInterval := true, avgPaceTenths := some 955 }

/-- A FixedTimeInterval on a bike with known average watts. -/
def ftiBike : Workout :=
  { workoutType := .str "FixedTimeInterval", machineType := some "bike",
    avgWatts := some 245 }

/-- A split whose stored stroke rate is the number 0. -/
def zeroRateSplit : Split :=
  { strokeRate := some 0 }

/-- A workout with none of the special types (JustRow column set). -/
def plainWorkout : Workout := {}

/-- An interval workout with a single split carrying no rest. -/
def oneSplitInterval : Workout :=
  { isInterval := true, splits := [{}] }

/-- A split whose stored rest is 600 tenths (one minute). -/
def rest600Split : Split :=
  { restTime := some 600 }

/-- An interval workout (generic type) with a single split resting 600 tenths. -/
def genericOneSplit : Workout :=
  { isInterval := true, splits := [rest600Split] }

/-- An interval workout whose non-final rests differ (600 and 300 tenths). -/
def nonUniformRestWorkout : Workout :=
  { isInterval := true,
    splits := [{ restTime := some 600 }, { restTime := some 300 }, ({} : Split)] }

/-- A split whose stored distance is the number 0. -/
def zeroDistSplit : Split :=
  { distanceM := some 0 }

/-- A JustRow workout with two splits (short-workout branch). -/
def shortJustRow : Workout :=
  { workoutType := .str "JustRow", distanceM := some 5231,
    splits := [({} : Split), ({} : Split)] }

/-- A numeric-zero workoutType record carrying an inferred title. -/
def justRowInferred : Workout :=
  { workoutType := .zero, inferredTitle := some "Morning Row" }

/-! ## Helper lemmas -/

theorem pyInt_eq_floor {q : ℚ} (h : 0 ≤ q) : pyInt q = ⌊q⌋ := by
  simp [pyInt, h]

theorem pyInt_le_of_le {q : ℚ} {b : ℤ} (h0 : 0 ≤ q) (h : q ≤ (b : ℚ)) : pyInt q ≤ b := by
  rw [pyInt_eq_floor h0]
  have := Int.floor_le_floor h
  simpa using this

theorem overflowRescale_first_bounds (A T : ℚ) (h r f : ℤ)
    (hA : 0 < A) (h60 : 60 ≤ h) (h120 : h ≤ 120) :
    60 ≤ (overflowRescale A T h r f).1 ∧ (overflowRescale A T h r f).1 ≤ 120 := by
  unfold overflowRescale
  split_ifs with hc
  · have hT : 0 < T := hA.trans hc
    have hs1 : A / T ≤ 1 := (div_le_one hT).mpr hc.le
    have hq0 : 0 ≤ (h : ℚ) * (A / T) := by positivity
    have hq : (h : ℚ) * (A / T) ≤ (120 : ℤ) := by
      calc (h : ℚ) * (A / T) ≤ (h : ℚ) :=
            mul_le_of_le_one_right (by exact_mod_cast h60.trans' (by norm_num)) hs1
        _ ≤ ((120 : ℤ) : ℚ) := by exact_mod_cast h120
    exact ⟨le_max_left _ _, max_le (by norm_num) (pyInt_le_of_le hq0 hq)⟩
  · exact ⟨h60, h120⟩

theorem overflowRescale_font_bounds (A T : ℚ) (h r f : ℤ)
    (hA : 0 < A) (f44 : 44 ≤ f) (f52 : f ≤ 52) :
    44 ≤ (overflowRescale A T h r f).2.2 ∧ (overflowRescale A T h r f).2.2 ≤ 52 := by
  unfold overflowRescale
  split_ifs with hc
  · have hT : 0 < T := hA.trans hc
    have hs1 : A / T ≤ 1 := (div_le_one hT).mpr hc.le
    have hq0 : 0 ≤ (f : ℚ) * (A / T) := by positivity
    have hq : (f : ℚ) * (A / T) ≤ (52 : ℤ) := by
      calc (f : ℚ) * (A / T) ≤ (f : ℚ) :=
            mul_le_of_le_one_right (by exact_mod_cast f44.trans' (by norm_num)) hs1
        _ ≤ ((52 : ℤ) : ℚ) := by exact_mod_cast f52
    exact ⟨le_max_left _ _, max_le (by norm_num) (pyInt_le_of_le hq0 hq)⟩
  · exact ⟨f44, f52⟩

theorem uniformCore_fst_iff (w : List Split) :
    (uniformCore w).1 = true ↔ ∀ r₁ ∈ nonzeroRests w, ∀ r₂ ∈ nonzeroRests w, r₁ = r₂ := by
  unfold uniformCore
  cases hnr : nonzeroRests w with
  | nil => simp
  | cons r rs =>
    dsimp only
    split_ifs with hall
    · simp only [true_iff]
      intro r₁ h₁ r₂ h₂
      have hr : ∀ x ∈ r :: rs, x = r := by
        intro x hx
        rcases List.mem_cons.mp hx with h | h
        · exact h
        · simpa using List.all_eq_true.mp hall x h
      rw [hr r₁ h₁, hr r₂ h₂]
    · simp only [Bool.false_eq_true, false_iff, not_forall]
      by_contra hcontra
      push_neg at hcontra
      apply hall
      rw [List.all_eq_true]
      intro x hx
      simpa using hcontra x (List.mem_cons_of_mem _ hx) r (List.mem_cons_self _ _)

theorem uniformCore_singleton_fst (s : Split) : (uniformCore [s]).1 = true := by
  unfold uniformCore nonzeroRests
  rcases h : s.restTime with _ | r
  · simp [h]
  · by_cases hr : r = 0 <;> simp [h, hr, List.filterMap]

theorem has_uniform_rest_fst_iff (l : List Split) :
    (has_uniform_rest l).1 = true ↔ uniformRestSpec l := by
  unfold has_uniform_rest uniformRestSpec
  split_ifs with hlen
  · rcases l with _ | ⟨a, t⟩
    · simp at hlen
    · rcases t with _ | ⟨b, t2⟩
      · simp at hlen
      · exact uniformCore_fst_iff _
  · rcases l with _ | ⟨a, t⟩
    · simpa using uniformCore_fst_iff []
    · rcases t with _ | ⟨b, t2⟩
      · constructor
        · intro _ r₁ h₁
          simp [nonzeroRests] at h₁
        · intro _
          exact uniformCore_singleton_fst a
      · exfalso; simp at hlen

theorem has_valuable_iff (l : List Split) :
    has_valuable_rest_data l = true ↔ ∃ s ∈ l, truthyZ s.heartRateRest = true := by
  simp [has_valuable_rest_data, List.any_eq_true]

theorem setLastRest_length (r : Option ℚ) : ∀ l : List Split, (setLastRest r l).length = l.length
  | [] => rfl
  | [_] => rfl
  | a :: b :: t => by
    have ih := setLastRest_length r (b :: t)
    show (a :: setLastRest r (b :: t)).length = (a :: b :: t).length
    simpa using ih

theorem setLastRest_ne_nil (r : Option ℚ) (b : Split) (t : List Split) :
    setLastRest r (b :: t) ≠ [] := by
  cases t <;> simp [setLastRest]

theorem setLastRest_dropLast (r : Option ℚ) :
    ∀ l : List Split, (setLastRest r l).dropLast = l.dropLast
  | [] => rfl
  | [_] => rfl
  | a :: b :: t => by
    have ih := setLastRest_dropLast r (b :: t)
    show (a :: setLastRest r (b :: t)).dropLast = (a :: b :: t).dropLast
    cases hsl : setLastRest r (b :: t) with
    | nil => exact absurd hsl (setLastRest_ne_nil r b t)
    | cons x xs =>
      rw [List.dropLast_cons₂, List.dropLast_cons₂, ← hsl, ih]

theorem has_uniform_rest_singleton (s : Split) (r : ℚ)
    (h : s.restTime = some r) (hr : r ≠ 0) :
    has_uniform_rest [s] = (true, some r) := by
  unfold has_uniform_rest uniformCore nonzeroRests
  simp [h, hr, List.filterMap]

theorem restLabel_singleton (s : Split) (r : ℚ)
    (h : s.restTime = some r) (hr : r ≠ 0) :
    _rest_label [s] false = " / " ++ pyFmtOptStr (format_rest_coach r) := by
  unfold _rest_label restLabelCore nonzeroRests
  simp [h, hr, List.filterMap]

theorem build_title_generic_interval (d : Workout)
    (hi : is_interval d = true) (hne : d.splits ≠ [])
    (hjt : (isJustRowType d.workoutType && truthyS d.inferredTitle) = false)
    (hw : d.workoutType.name ∉ (["FixedDistanceInterval", "FixedTimeInterval",
        "VariableInterval", "VariableIntervalUndefinedRest"] : List String)) :
    build_title d = pyStr d.splits.length ++ " intervals" ++ _rest_label d.splits false := by
  have h1 : (d.workoutType.name == "FixedDistanceInterval") = false := by
    simp only [beq_eq_false_iff_ne]; intro h; exact hw (by simp [h])
  have h2 : (d.workoutType.name == "FixedTimeInterval") = false := by
    simp only [beq_eq_false_iff_ne]; intro h; exact hw (by simp [h])
  have h3 : (d.workoutType.name == "VariableInterval") = false := by
    simp only [beq_eq_false_iff_ne]; intro h; exact hw (by simp [h])
  have h4 : (d.workoutType.name == "VariableIntervalUndefinedRest") = false := by
    simp only [beq_eq_false_iff_ne]; intro h; exact hw (by simp [h])
  have hie : d.splits.isEmpty = false := by
    simpa [List.isEmpty_iff] using hne
  simp [build_title, hjt, hi, hie, h1, h2, h3, h4]

theorem nonzeroDistances_const (v : ℤ) (hv : v ≠ 0) :
    ∀ l : List Split, (∀ s ∈ l, s.distanceM = some v) →
      nonzeroDistances l = List.replicate l.length v
  | [], _ => rfl
  | s :: t, h => by
    have ih := nonzeroDistances_const v hv t (fun x hx => h x (List.mem_cons_of_mem _ hx))
    have hs : s.distanceM = some v := h s (List.mem_cons_self _ _)
    have hbne : (v != 0) = true := by simpa using hv
    unfold nonzeroDistances at ih ⊢
    rw [List.filterMap_cons]
    simp only [hs, hbne, if_true]
    rw [ih, List.length_cons, List.replicate_succ]

theorem c2_general_fdi (d : Workout) (v : ℤ)
    (hw : d.workoutType = WorkoutType.str "FixedDistanceInterval")
    (hne : d.splits ≠ []) (hv : v ≠ 0)
    (hall : ∀ s ∈ d.splits, s.distanceM = some v) :
    build_title d = pyStr d.splits.length ++ "x" ++ format_distance (some v)
      ++ _rest_label d.splits false := by
  have hname : d.workoutType.name = "FixedDistanceInterval" := by rw [hw]; rfl
  have hj : isJustRowType d.workoutType = false := by rw [hw]; rfl
  have hi : is_interval d = true := by
    have hc : strContainsSub (pyLower "FixedDistanceInterval") "interval" = true := by decide
    simp [is_interval, hname, hc]
  have hie : d.splits.isEmpty = false := by simpa [List.isEmpty_iff] using hne
  have hnd : nonzeroDistances d.splits = List.replicate d.splits.length v :=
    nonzeroDistances_const v hv d.splits hall
  obtain ⟨a, t, hsp⟩ := List.exists_cons_of_ne_nil hne
  have hlen : d.splits.length = t.length + 1 := by rw [hsp]; rfl
  have hrep : nonzeroDistances d.splits = v :: List.replicate t.length v := by
    rw [hnd, hlen, List.replicate_succ]
  have hallrep : (List.replicate t.length v).all (fun x => x == v) = true := by
    rw [List.all_eq_true]
    intro x hx
    simp [List.eq_of_mem_replicate hx]
  simp only [build_title, hj, Bool.false_and, Bool.false_eq_true, if_false,
    hi, hie, Bool.not_false, Bool.and_self, if_true, hname, beq_self_eq_true,
    hrep, hallrep]

theorem pyStrAux_length_pos (fuel n : ℕ) (hf : 0 < fuel) : 0 < (pyStrAux fuel n).length := by
  cases fuel with
  | zero => omega
  | succ f =>
    unfold pyStrAux
    split_ifs
    · show 0 < (String.mk [digitChar n]).length
      have h1 : (String.mk [digitChar n]).length = 1 := rfl
      omega
    · rw [String.length_append]
      have h1 : (String.mk [digitChar n]).length = 1 := rfl
      omega

theorem pyStr_length_pos (n : ℕ) : 0 < (pyStr n).length :=
  pyStrAux_length_pos _ _ (Nat.succ_pos n)

theorem pyStrInt_length_pos (z : ℤ) : 0 < (pyStrInt z).length := by
  unfold pyStrInt
  split_ifs
  · rw [String.length_append]
    have := pyStr_length_pos z.natAbs
    omega
  · exact pyStr_length_pos _

theorem str_ne_of_length_ne {s t : String} (h : s.length ≠ t.length) : s ≠ t :=
  fun e => h (by rw [e])

theorem commaGroupAux_length_pos (fuel n : ℕ) (hf : 0 < fuel) :
    0 < (commaGroupAux fuel n).length := by
  cases fuel with
  | zero => omega
  | succ f =>
    unfold commaGroupAux
    split_ifs
    · exact pyStr_length_pos n
    · rw [String.length_append, String.length_append]
      have h1 : (",").length = 1 := rfl
      omega

theorem commaGroup_length_pos (n : ℕ) : 0 < (commaGroup n).length :=
  commaGroupAux_length_pos _ _ (Nat.succ_pos n)

theorem pyCommaInt_length_pos (z : ℤ) : 0 < (pyCommaInt z).length := by
  unfold pyCommaInt
  split_ifs
  · rw [String.length_append]
    have := commaGroup_length_pos z.natAbs
    omega
  · exact commaGroup_length_pos _

theorem digit_mk_eq_zero_iff (n : ℕ) (h : n < 10) :
    String.mk [digitChar n] = "0" ↔ n = 0 := by
  interval_cases n <;> decide

theorem pyStrAux_eq_zero_iff (fuel n : ℕ) (hc : n < fuel) :
    pyStrAux fuel n = "0" ↔ n = 0 := by
  cases fuel with
  | zero => omega
  | succ f =>
    unfold pyStrAux
    split_ifs with h10
    · exact digit_mk_eq_zero_iff n h10
    · constructor
      · intro he
        exfalso
        have hl := congrArg String.length he
        rw [String.length_append] at hl
        have hpos : 0 < (pyStrAux f (n / 10)).length :=
          pyStrAux_length_pos f _ (by omega)
        have h1 : (String.mk [digitChar n]).length = 1 := rfl
        have h0 : ("0" : String).length = 1 := rfl
        omega
      · intro h0; omega

theorem pyStr_eq_zero_iff (n : ℕ) : pyStr n = "0" ↔ n = 0 :=
  pyStrAux_eq_zero_iff _ _ (Nat.lt_succ_self n)

theorem pyStrInt_eq_zero_iff (z : ℤ) : pyStrInt z = "0" ↔ z = 0 := by
  unfold pyStrInt
  split_ifs with hneg
  · constructor
    · intro he
      exfalso
      have hl := congrArg String.length he
      rw [String.length_append] at hl
      have := pyStr_length_pos z.natAbs
      have h1 : ("-").length = 1 := rfl
      have h0 : ("0" : String).length = 1 := rfl
      omega
    · intro h0; omega
  · rw [pyStr_eq_zero_iff]
    omega

theorem format_time_clean_shape (x : Option ℚ) :
    format_time_clean x = "--:--" ∨ ∃ z t, format_time_clean x = pyStrInt z ++ ":" ++ t := by
  unfold format_time_clean
  dsimp only
  split_ifs
  · left; rfl
  · right
    exact ⟨⌊x.getD 0 / 3600⌋, pad2 (⌊pyMod (x.getD 0) 3600 / 60⌋).toNat ++ ":"
      ++ pad2 (pyInt (pyMod (x.getD 0) 60)).toNat,
      by simp only [String.append_assoc]⟩
  · right
    exact ⟨⌊x.getD 0 / 3600⌋, pad2 (⌊pyMod (x.getD 0) 3600 / 60⌋).toNat ++ ":"
      ++ fmt04_1 (pyMod (x.getD 0) 60),
      by simp only [String.append_assoc]⟩
  · right; exact ⟨_, _, rfl⟩
  · right; exact ⟨_, _, rfl⟩

theorem colon_shape_length {z : ℤ} {t s : String} (h : s = pyStrInt z ++ ":" ++ t) :
    2 ≤ s.length := by
  subst h
  rw [String.length_append, String.length_append]
  have := pyStrInt_length_pos z
  have h1 : (":").length = 1 := rfl
  omega

theorem ne_of_two_le_length {s t : String} (h2 : 2 ≤ s.length) (ht : t.length ≤ 1) :
    s ≠ t :=
  str_ne_of_length_ne (by omega)

theorem format_time_clean_ne_empty (x : Option ℚ) : format_time_clean x ≠ "" := by
  rcases format_time_clean_shape x with h | ⟨z, t, h⟩ <;> rw [h]
  · decide
  · exact ne_of_two_le_length (colon_shape_length rfl) (by decide)

theorem format_time_clean_ne_zero (x : Option ℚ) : format_time_clean x ≠ "0" := by
  rcases format_time_clean_shape x with h | ⟨z, t, h⟩ <;> rw [h]
  · decide
  · exact ne_of_two_le_length (colon_shape_length rfl) (by decide)

theorem paceMSt_length (q : ℚ) : 2 ≤ (paceMSt q).length :=
  colon_shape_length (rfl : paceMSt q = _)

theorem format_pace_ne_empty (x : Option ℚ) (d : Workout) : format_pace x d ≠ "" := by
  unfold format_pace
  dsimp only
  split_ifs <;> first
    | decide
    | exact ne_of_two_le_length (paceMSt_length _) (by decide)

theorem format_pace_ne_zero (x : Option ℚ) (d : Workout) : format_pace x d ≠ "0" := by
  unfold format_pace
  dsimp only
  split_ifs <;> first
    | decide
    | exact ne_of_two_le_length (paceMSt_length _) (by decide)

theorem fmt_dist_ne_empty (s : Split) : fmt_dist s ≠ "" := by
  unfold fmt_dist
  split_ifs
  · apply str_ne_of_length_ne
    rw [String.length_append]
    have := pyCommaInt_length_pos (s.distanceM.getD 0)
    have h1 : ("m").length = 1 := rfl
    have h0 : ("" : String).length = 0 := rfl
    omega
  · decide

theorem fmt_dist_ne_zero (s : Split) : fmt_dist s ≠ "0" := by
  unfold fmt_dist
  split_ifs
  · apply str_ne_of_length_ne
    rw [String.length_append]
    have := pyCommaInt_length_pos (s.distanceM.getD 0)
    have h1 : ("m").length = 1 := rfl
    have h0 : ("0" : String).length = 1 := rfl
    omega
  · decide

theorem pyStrInt_ne_empty (z : ℤ) : pyStrInt z ≠ "" := by
  apply str_ne_of_length_ne
  have := pyStrInt_length_pos z
  have h0 : ("" : String).length = 0 := rfl
  omega

theorem fmt_watts_ne_empty (s : Split) : fmt_watts s ≠ "" := by
  unfold fmt_watts
  split_ifs
  · exact pyStrInt_ne_empty _
  · decide

theorem fmt_watts_ne_zero (s : Split) : fmt_watts s ≠ "0" := by
  unfold fmt_watts
  split_ifs with h
  · rw [Ne, pyStrInt_eq_zero_iff]
    rcases hw : s.watts with _ | w
    · rw [hw] at h; simp [truthyZ] at h
    · rw [hw] at h; simp [truthyZ] at h; simpa using h
  · decide

theorem fmt_rate_eq_zero_iff (s : Split) : fmt_rate s = "0" ↔ s.strokeRate = some 0 := by
  unfold fmt_rate
  cases h : s.strokeRate with
  | none => simp
  | some sr => rw [pyStrInt_eq_zero_iff]; simp

theorem fmt_rate_ne_empty (s : Split) : fmt_rate s ≠ "" := by
  unfold fmt_rate
  cases s.strokeRate with
  | none => decide
  | some sr => exact pyStrInt_ne_empty _

theorem fmt_hr_eq_zero_iff (s : Split) : fmt_hr s = "0" ↔ s.heartRate = some 0 := by
  unfold fmt_hr
  cases h : s.heartRate with
  | none => simp
  | some hr => rw [pyStrInt_eq_zero_iff]; simp

theorem fmt_hr_ne_empty (s : Split) : fmt_hr s ≠ "" := by
  unfold fmt_hr
  cases s.heartRate with
  | none => decide
  | some hr => exact pyStrInt_ne_empty _

theorem columns_fmt_ne_empty (d : Workout) (s : Split) :
    ∀ c ∈ get_table_columns d, c.fmt s ≠ "" := by
  intro c hc
  unfold get_table_columns at hc
  split_ifs at hc <;> fin_cases hc <;>
    first
      | exact fmt_dist_ne_empty s
      | exact format_time_clean_ne_empty _
      | exact format_pace_ne_empty _ _
      | exact fmt_watts_ne_empty s
      | exact fmt_rate_ne_empty s
      | exact fmt_hr_ne_empty s

theorem hero_total_time (d : Workout) (v : ℤ)
    (hd : d.distanceM = some v) (hmem : v ∈ TEST_DISTANCES)
    (hni : is_interval d = false) :
    get_hero d = (format_time_clean d.durationSeconds, "TOTAL TIME") := by
  have hv0 : v ≠ 0 := by
    intro h; subst h; simp [TEST_DISTANCES] at hmem
  have hco : TEST_DISTANCES.contains v = true := List.elem_iff.mpr hmem
  have ht : truthyZ d.distanceM = true := by simp [truthyZ, hd, hv0]
  simp [get_hero, hd, ht, hco, hni, hmem]
  intro h
  simp [truthyZ, hv0] at h

theorem hero_avg_watts (d : Workout) (w : ℤ)
    (hw : d.workoutType = WorkoutType.str "FixedTimeInterval")
    (hb : is_bike d = true) (hav : d.avgWatts = some w) (hw0 : w ≠ 0) :
    get_hero d = (pyStrInt w, "AVG WATTS") := by
  have hname : d.workoutType.name = "FixedTimeInterval" := by rw [hw]; rfl
  have hi : is_interval d = true := by
    have hc : strContainsSub (pyLower "FixedTimeInterval") "interval" = true := by decide
    simp [is_interval, hname, hc]
  simp [get_hero, hname, hi, hb, hav, hw0, truthyZ]

/-! ## Claims -/

/-- C1 (amended): for every positive available height and row count at least
one, the engine returns `max_rows` at least 1 and a data font within
`[44, 52]`; the data row height lies within `[75, 120]` before the overflow
rescale, but the rescale step re-clamps it to the lower absolute floor 60, so
the returned value lies within `[60, 120]`. -/
theorem c1_layout_bounds (H : ℚ) (n : ℕ) (iv sr : Bool) (hH : 0 < H) (_hn : 1 ≤ n) :
    1 ≤ (compute_table_layout H n iv sr).max_rows ∧
    (44 ≤ (compute_table_layout H n iv sr).data_font ∧
      (compute_table_layout H n iv sr).data_font ≤ 52) ∧
    (60 ≤ (compute_table_layout H n iv sr).data_row_h ∧
      (compute_table_layout H n iv sr).data_row_h ≤ 120) := by
  simp only [compute_table_layout]
  refine ⟨le_max_left _ _, ?_, ?_⟩
  · exact overflowRescale_font_bounds _ _ _ _ _ hH (le_max_left _ _)
      (max_le (by norm_num) (min_le_left _ _))
  · exact overflowRescale_first_bounds _ _ _ _ _ hH
      (le_trans (by norm_num) (le_max_left _ _)) (max_le (by norm_num) (min_le_left _ _))

/-- C1 counterexample: at available height 1000 with 100 data rows the
overflow rescale clamps the data row height to 60, strictly below the
configured minimum row height 75, so the returned value is not within
`[75, 120]` as claimed. -/
theorem c1_counterexample :
    (compute_table_layout 1000 100 false false).data_row_h = 60 ∧
    (compute_table_layout 1000 100 false false).data_row_h < 75 := by
  decide

/-- C1 witness: the amended bounds evaluated at height 500 with 5 rows. -/
theorem c1_witness :
    1 ≤ (compute_table_layout 500 5 false false).max_rows ∧
    (44 ≤ (compute_table_layout 500 5 false false).data_font ∧
      (compute_table_layout 500 5 false false).data_font ≤ 52) ∧
    (60 ≤ (compute_table_layout 500 5 false false).data_row_h ∧
      (compute_table_layout 500 5 false false).data_row_h ≤ 120) :=
  c1_layout_bounds 500 5 false false (by norm_num) (by norm_num)

/-- C2 (amended): for a FixedDistanceInterval workout whose splits all carry
the same nonzero distance, `build_title` returns
`"{n}x{distance}{restSuffix}"`; for 5 splits of 2000 m with uniform rest 600
tenths on every split except the last, the title is exactly `"5x2K / 1'r"`
(the coach-rest string `format_rest_coach(600)`), not `"5x2K / 1:00r"`. -/
theorem c2_title_fdi :
    (∀ (d : Workout) (v : ℤ), d.workoutType = WorkoutType.str "FixedDistanceInterval" →
      d.splits ≠ [] → v ≠ 0 → (∀ s ∈ d.splits, s.distanceM = some v) →
      build_title d = pyStr d.splits.length ++ "x" ++ format_distance (some v)
        ++ _rest_label d.splits false) ∧
    build_title fdi2Kx5 = "5x2K / 1\x27r" :=
  ⟨c2_general_fdi, by decide⟩

/-- C2 counterexample: the claimed exact title string does not match the
code, which renders the rest in coach style. -/
theorem c2_counterexample : build_title fdi2Kx5 ≠ "5x2K / 1:00r" := by
  decide

/-- C2 witness: the general shape applied to the concrete 5x2K workout. -/
theorem c2_witness :
    build_title fdi2Kx5 = pyStr fdi2Kx5.splits.length ++ "x"
      ++ format_distance (some 2000) ++ _rest_label fdi2Kx5.splits false :=
  c2_title_fdi.1 fdi2Kx5 2000 rfl (by decide) (by norm_num) (by decide)

/-- C3: hero selection is first-match-wins: a continuous workout at a test
distance heroes total elapsed time with label TOTAL TIME (at 2000 m and
382.1 s this is ("6:22.1", "TOTAL TIME")); the same data flagged as interval
heroes the average split pace, never total time; a FixedTimeInterval on a
bike with known average watts heroes ("{watts}", "AVG WATTS"). -/
theorem c3_hero_selection :
    (∀ (d : Workout) (v : ℤ), d.distanceM = some v → v ∈ TEST_DISTANCES →
      is_interval d = false →
      get_hero d = (format_time_clean d.durationSeconds, "TOTAL TIME")) ∧
    get_hero twoKContinuous = ("6:22.1", "TOTAL TIME") ∧
    (get_hero twoKIntervalFlag = ("1:35.5", "AVG SPLIT /500m") ∧
      (get_hero twoKIntervalFlag).2 ≠ "TOTAL TIME") ∧
    (∀ (d : Workout) (w : ℤ), d.workoutType = WorkoutType.str "FixedTimeInterval" →
      is_bike d = true → d.avgWatts = some w → w ≠ 0 →
      get_hero d = (pyStrInt w, "AVG WATTS")) :=
  ⟨hero_total_time, by decide, by decide, hero_avg_watts⟩

/-- C3 witness: the two general hero rules applied at concrete records. -/
theorem c3_witness :
    get_hero ftiBike = (pyStrInt 245, "AVG WATTS") ∧
    get_hero twoKContinuous = (format_time_clean twoKContinuous.durationSeconds, "TOTAL TIME") :=
  ⟨c3_hero_selection.2.2.2 ftiBike 245 rfl (by decide) rfl (by norm_num),
   c3_hero_selection.1 twoKContinuous 2000 rfl (by decide) (by decide)⟩

/-- C4 (amended): for every interval workout with AT LEAST TWO splits whose
non-final rests are all equal and nonzero, changing only the last split's
restTime to any nonzero value changes neither `has_uniform_rest` nor the
rest suffix of the title; with a single split the exclusion does not apply
(see the counterexample). -/
theorem c4_rest_exclusion (d : Workout) (r c : ℚ) (hlen : 2 ≤ d.splits.length)
    (_hall : ∀ s ∈ d.splits.dropLast, s.restTime = some c) (_hc : c ≠ 0) (_hr : r ≠ 0) :
    has_uniform_rest (setLastRest (some r) d.splits) = has_uniform_rest d.splits ∧
    ∀ a, _rest_label (setLastRest (some r) d.splits) a = _rest_label d.splits a := by
  have hlen2 : (setLastRest (some r) d.splits).length = d.splits.length :=
    setLastRest_length _ _
  have hgt : d.splits.length > 1 := hlen
  constructor
  · unfold has_uniform_rest
    rw [hlen2, if_pos hgt, if_pos hgt, setLastRest_dropLast]
  · intro a
    unfold _rest_label
    rw [hlen2, if_pos hgt, if_pos hgt, setLastRest_dropLast]

/-- C4 counterexample: for a one-split interval workout, setting the lone
(= last) split's rest to 600 tenths changes the rest suffix and the title,
because the cooldown exclusion does not apply to a single split. -/
theorem c4_counterexample :
    _rest_label (setLastRest (some 600) oneSplitInterval.splits) false ≠
      _rest_label oneSplitInterval.splits false ∧
    build_title { oneSplitInterval with
        splits := setLastRest (some 600) oneSplitInterval.splits } ≠
      build_title oneSplitInterval := by
  decide

/-- C4 witness: the invariant at the concrete 5x2K workout with the last
rest changed to 300 tenths. -/
theorem c4_witness :
    has_uniform_rest (setLastRest (some 300) fdi2Kx5.splits) = has_uniform_rest fdi2Kx5.splits ∧
    _rest_label (setLastRest (some 300) fdi2Kx5.splits) false = _rest_label fdi2Kx5.splits false :=
  ⟨(c4_rest_exclusion fdi2Kx5 300 600 (by decide) (by decide) (by norm_num) (by norm_num)).1,
   (c4_rest_exclusion fdi2Kx5 300 600 (by decide) (by decide) (by norm_num) (by norm_num)).2 false⟩

/-- C5: rest rows are shown iff the workout is an interval workout and
(either the non-final splits' nonzero rests are not all equal, or some split
carries a recovery heart rate); the uniformity boolean agrees with the
spec-side predicate that excludes the final split, and
`has_valuable_rest_data` holds exactly when some split has heartRateRest. -/
theorem c5_rest_row_policy (d : Workout) (l : List Split) :
    (show_rest_rows d = true ↔ restRowsSpec d) ∧
    ((has_uniform_rest l).1 = true ↔ uniformRestSpec l) ∧
    (has_valuable_rest_data l = true ↔ ∃ s ∈ l, truthyZ s.heartRateRest = true) := by
  refine ⟨?_, has_uniform_rest_fst_iff l, has_valuable_iff l⟩
  unfold show_rest_rows restRowsSpec
  rw [Bool.and_eq_true, Bool.or_eq_true, Bool.not_eq_true']
  rw [← has_uniform_rest_fst_iff, ← has_valuable_iff]
  simp [Bool.not_eq_true]

/-- C5 witness: a workout with differing non-final rests satisfies the
spec-side rest-row predicate via the policy equivalence. -/
theorem c5_witness : restRowsSpec nonUniformRestWorkout :=
  (c5_rest_row_policy nonUniformRestWorkout []).1.mp (by decide)

/-- C6 (amended): every column formatter yields its dash placeholder
(`"--"`, or `"--:--"` for the time and pace columns) when the field is null;
distance, time, pace and watts also map a stored zero to the placeholder; the
rate and heart-rate formatters guard with `is not None` and therefore render
a stored zero as `"0"`; no formatter ever yields the empty string. -/
theorem c6_formatters (d : Workout) (s : Split) :
    (truthyZ s.distanceM = false → fmt_dist s = "--") ∧
    (truthyQ s.timeSeconds = false → fmt_time s = "--:--") ∧
    (truthyQ s.paceTenths = false → fmt_pace d s = "--:--") ∧
    (truthyZ s.watts = false → fmt_watts s = "--") ∧
    (s.strokeRate = none → fmt_rate s = "--") ∧
    (fmt_rate s = "0" ↔ s.strokeRate = some 0) ∧
    (s.heartRate = none → fmt_hr s = "--") ∧
    (fmt_hr s = "0" ↔ s.heartRate = some 0) ∧
    (∀ c ∈ get_table_columns d, c.fmt s ≠ "") ∧
    fmt_dist s ≠ "0" ∧ fmt_time s ≠ "0" ∧ fmt_pace d s ≠ "0" ∧ fmt_watts s ≠ "0" := by
  refine ⟨?_, ?_, ?_, ?_, ?_, fmt_rate_eq_zero_iff s, ?_, fmt_hr_eq_zero_iff s,
    columns_fmt_ne_empty d s, fmt_dist_ne_zero s, format_time_clean_ne_zero _,
    format_pace_ne_zero _ _, fmt_watts_ne_zero s⟩
  · intro h; simp [fmt_dist, h]
  · intro h; simp [fmt_time, format_time_clean, h]
  · intro h; simp [fmt_pace, format_pace, h]
  · intro h; simp [fmt_watts, h]
  · intro h; simp [fmt_rate, h]
  · intro h; simp [fmt_hr, h]

/-- C6 counterexample: on the JustRow column set, a split whose stroke rate
is the stored number 0 renders a bare "0" in the rate column (and the time
and pace placeholders are "--:--", not "--"), contradicting the claim that
every formatter maps zero to "--" and never renders "0". -/
theorem c6_counterexample :
    ((get_table_columns plainWorkout).map (fun c => c.fmt zeroRateSplit))
      = ["--:--", "--", "0", "--"] := by
  decide

/-- C6 witness: the null and zero cases of the amended claim at concrete
splits. -/
theorem c6_witness :
    fmt_dist zeroDistSplit = "--" ∧ fmt_rate zeroRateSplit = "0" :=
  ⟨(c6_formatters plainWorkout zeroDistSplit).1 (by decide),
   (c6_formatters plainWorkout zeroRateSplit).2.2.2.2.2.1.mpr rfl⟩

/-- C7: `format_pace` takes canonical tenths-per-500m; on a bike the input is
doubled before the M:SS.t conversion, so 600 tenths renders "1:00.0" on a
rower and "2:00.0" on a bike; null and zero inputs yield "--:--". -/
theorem c7_format_pace :
    format_pace (some 600) plainWorkout = "1:00.0" ∧
    format_pace (some 600) ftiBike = "2:00.0" ∧
    (∀ d : Workout, format_pace none d = "--:--") ∧
    (∀ d : Workout, format_pace (some 0) d = "--:--") ∧
    (∀ (d : Workout) (v : ℚ), v ≠ 0 → is_bike d = true →
      format_pace (some v) d = paceMSt (v * 2)) ∧
    (∀ (d : Workout) (v : ℚ), v ≠ 0 → is_bike d = false →
      format_pace (some v) d = paceMSt v) := by
  refine ⟨by decide, by decide, fun d => rfl, fun d => by simp [format_pace, truthyQ], ?_, ?_⟩
  · intro d v hv hb
    simp [format_pace, truthyQ, hv, hb]
  · intro d v hv hb
    simp [format_pace, truthyQ, hv, hb]

/-- C7 witness: the bike-doubling and rower rules applied at 955 tenths. -/
theorem c7_witness :
    format_pace (some 955) ftiBike = paceMSt (955 * 2) ∧
    format_pace (some 955) plainWorkout = paceMSt 955 :=
  ⟨c7_format_pace.2.2.2.2.1 ftiBike 955 (by norm_num) (by decide),
   c7_format_pace.2.2.2.2.2 plainWorkout 955 (by norm_num) (by decide)⟩

/-- C8: a JustRow or FixedTimeSplits workout with between 1 and 3 splits
takes the extended WORKOUT SUMMARY branch of the renderer: the splits table,
rest rows and the adaptive sizing engine are bypassed entirely. -/
theorem c8_short_workout_bypass (height : ℤ) (d : Workout)
    (hw : d.workoutType = WorkoutType.str "JustRow" ∨
          d.workoutType = WorkoutType.str "FixedTimeSplits")
    (h1 : 1 ≤ d.splits.length) (h3 : d.splits.length ≤ 3) :
    render_table_section height d =
      TablePlan.shortSummary (extended_stats d) (1 < d.splits.length) := by
  have hie : d.splits.isEmpty = false := by
    have hne : d.splits ≠ [] := List.ne_nil_of_length_pos (by omega)
    simpa [List.isEmpty_iff] using hne
  have hname : (d.workoutType.name == "JustRow"
      || d.workoutType.name == "FixedTimeSplits") = true := by
    rcases hw with h | h <;> rw [h] <;> rfl
  simp [render_table_section, hie, hname, h3]

/-- C8 witness: the short-workout branch at a concrete two-split JustRow. -/
theorem c8_witness :
    render_table_section 2160 shortJustRow =
      TablePlan.shortSummary (extended_stats shortJustRow) (1 < shortJustRow.splits.length) :=
  c8_short_workout_bypass 2160 shortJustRow (Or.inl rfl) (by decide) (by decide)

/-- C9: a JustRow record (string "JustRow" or the numeric 0) carrying a
non-empty inferredTitle short-circuits `build_title` to that string
verbatim. -/
theorem c9_inferred_title (d : Workout) (t : String)
    (hj : isJustRowType d.workoutType = true) (hi : d.inferredTitle = some t) (ht : t ≠ "") :
    build_title d = t := by
  simp only [build_title, hi, hj]
  simp [truthyS, ht]

/-- C9 witness: the short-circuit at a numeric-zero workoutType record. -/
theorem c9_witness : build_title justRowInferred = "Morning Row" :=
  c9_inferred_title justRowInferred "Morning Row" (by decide) rfl (by decide)

/-- C10: with exactly one split the cooldown exclusion does not apply: the
lone split's nonzero rest participates in the uniform-rest computation and
produces a rest suffix in the title; the last-split exclusion takes effect
exactly when there are at least two splits. -/
theorem c10_single_split_rest :
    (∀ (s : Split) (r : ℚ), s.restTime = some r → r ≠ 0 →
      has_uniform_rest [s] = (true, some r) ∧
      _rest_label [s] false = " / " ++ pyFmtOptStr (format_rest_coach r)) ∧
    (∀ (d : Workout) (s : Split) (r : ℚ), d.splits = [s] → s.restTime = some r → r ≠ 0 →
      is_interval d = true →
      (isJustRowType d.workoutType && truthyS d.inferredTitle) = false →
      d.workoutType.name ∉ (["FixedDistanceInterval", "FixedTimeInterval",
        "VariableInterval", "VariableIntervalUndefinedRest"] : List String) →
      build_title d = pyStr 1 ++ " intervals" ++ (" / " ++ pyFmtOptStr (format_rest_coach r))) ∧
    (∀ l : List Split, 2 ≤ l.length →
      has_uniform_rest l = uniformCore l.dropLast ∧
      ∀ a, _rest_label l a = restLabelCore l.dropLast a) := by
  refine ⟨?_, ?_, ?_⟩
  · intro s r h hr
    exact ⟨has_uniform_rest_singleton s r h hr, restLabel_singleton s r h hr⟩
  · intro d s r hsp hrt hr0 hi hjt hw
    have hne : d.splits ≠ [] := by rw [hsp]; simp
    have htitle := build_title_generic_interval d hi hne hjt hw
    rw [htitle, hsp, restLabel_singleton s r hrt hr0]
    rfl
  · intro l hl
    have hgt : l.length > 1 := hl
    constructor
    · unfold has_uniform_rest
      rw [if_pos hgt]
    · intro a
      unfold _rest_label
      rw [if_pos hgt]

/-- C10 witness: the three parts instantiated at a 600-tenths rest. -/
theorem c10_witness :
    has_uniform_rest [rest600Split] = (true, some 600) ∧
    build_title genericOneSplit = pyStr 1 ++ " intervals"
      ++ (" / " ++ pyFmtOptStr (format_rest_coach 600)) ∧
    has_uniform_rest [rest600Split, rest600Split] =
      uniformCore ([rest600Split, rest600Split].dropLast) :=
  ⟨(c10_single_split_rest.1 rest600Split 600 rfl (by norm_num)).1,
   c10_single_split_rest.2.1 genericOneSplit rest600Split 600 rfl rfl (by norm_num)
     (by decide) (by decide) (by decide),
   (c10_single_split_rest.2.2 [rest600Split, rest600Split] (by decide)).1⟩
